import Mathlib

/-!
Verification of the two C compatibility headers of this repository:
`bash/wasm_compat.h` and `nginx/wasm_compat.h`.

Both headers consist purely of C-preprocessor directives (plus one
`static inline` function definition).  We embed them shallowly:

* The preprocessor state is the set of names that are currently
  *defined* (macros, plus the typedef `cpu_set_t` and the function
  `crypt`, which also occupy the translation unit's definition space).
  We represent it as a list of `MName`s; `isdef` tests membership,
  `define` adds a name (`#define`, a typedef or a function definition),
  `undef` removes all occurrences of a name (`#undef`).

* Each header becomes a function `PPEnv → PPEnv` that mirrors the
  source's directives in order.  Conditional blocks (`#ifndef X ...`,
  `#ifdef X #undef X`, `#if !defined(A) && !defined(B) ...`) become
  `if` expressions over `isdef`.  The `extern "C"` linkage block of the
  nginx header has no effect on the definition state and is not
  modelled.  `#include <sys/stat.h>`, `<sched.h>` and `<string.h>` pull
  in external sysroot headers that are not part of this repository and
  are likewise outside the model; the prior environment `e` accounts
  for whatever they may define.

* The *bodies* of the interesting definitions are modelled separately:
  the `crypt` stub as a function on optional strings (a null `char *`
  is `none`), the CPU-affinity macros both as token expansions (they
  are object-like textual substitutions that discard their arguments)
  and as functions on a bit-array value, and the legacy stat-field
  macros as a token expansion read back through an explicit
  field-lookup interpreter over a `struct stat` value.
-/

/-- Names that the two headers test, define or undefine.  `cpu_set_t`
stands for the typedef introduced by the nginx header's affinity block
and `crypt` for the `static inline` function definition; all other
constructors are preprocessor macro names from the sources. -/
inductive MName where
  | WASM_COMPAT_H
  | _WASM_COMPAT_H
  | __wasi__
  | st_atime
  | st_mtime
  | st_ctime
  | NGX_HAVE_SENDFILE
  | NGX_HAVE_SENDFILE64
  | CPU_SETSIZE
  | cpu_set_t
  | CPU_ZERO
  | CPU_SET
  | CPU_ISSET
  | HAVE_CRYPT
  | _CRYPT_H
  | crypt
  deriving DecidableEq

/-- The preprocessor definition state: the list of currently defined
names (a name is defined iff it occurs in the list). -/
def PPEnv : Type := List MName

instance : DecidableEq PPEnv := inferInstanceAs (DecidableEq (List MName))

/-- `defined(n)` / `#ifdef n`: is `n` currently defined? -/
def isdef (n : MName) : PPEnv → Bool
  | [] => false
  | m :: e => if n = m then true else isdef n e

/-- `#define n ...` (or a typedef / function definition of `n`). -/
def define (n : MName) (e : PPEnv) : PPEnv := n :: e

/-- `#undef n`: remove every record of `n` being defined. -/
def undef (n : MName) : PPEnv → PPEnv
  | [] => []
  | m :: e => if n = m then undef n e else m :: undef n e

/-- The idiom `#ifndef n` / `#define n ...` / `#endif`. -/
def ifndefDefine (n : MName) (e : PPEnv) : PPEnv :=
  if isdef n e then e else define n e

/-- The idiom `#ifdef n` / `#undef n` / `#endif`. -/
def ifdefUndef (n : MName) (e : PPEnv) : PPEnv :=
  if isdef n e then undef n e else e

theorem isdef_define_self (n : MName) (e : PPEnv) :
    isdef n (define n e) = true := by
  simp [define, isdef]

theorem isdef_define_ne {m n : MName} (h : m ≠ n) (e : PPEnv) :
    isdef m (define n e) = isdef m e := by
  simp [define, isdef, h]

theorem isdef_undef_self (n : MName) (e : PPEnv) :
    isdef n (undef n e) = false := by
  induction e with
  | nil => rfl
  | cons m e ih =>
      by_cases h : n = m
      · simpa [undef, h] using ih
      · simpa [undef, isdef, h] using ih

theorem isdef_undef_ne {m n : MName} (h : m ≠ n) (e : PPEnv) :
    isdef m (undef n e) = isdef m e := by
  induction e with
  | nil => rfl
  | cons k e ih =>
      by_cases hk : n = k
      · subst hk
        simp [undef, isdef, h, ih]
      · by_cases hmk : m = k
        · simp [undef, hk, isdef, hmk]
        · simp [undef, hk, isdef, hmk, ih]

theorem isdef_ifndefDefine_self (n : MName) (e : PPEnv) :
    isdef n (ifndefDefine n e) = true := by
  unfold ifndefDefine
  by_cases h : isdef n e
  · simp [h]
  · simp [h, isdef_define_self]

theorem isdef_ifndefDefine_ne {m n : MName} (h : m ≠ n) (e : PPEnv) :
    isdef m (ifndefDefine n e) = isdef m e := by
  unfold ifndefDefine
  by_cases hd : isdef n e
  · simp [hd]
  · simp [hd, isdef_define_ne h]

theorem isdef_ifdefUndef_self (n : MName) (e : PPEnv) :
    isdef n (ifdefUndef n e) = false := by
  unfold ifdefUndef
  by_cases h : isdef n e
  · simp [h, isdef_undef_self]
  · simp [h]

theorem isdef_ifdefUndef_ne {m n : MName} (h : m ≠ n) (e : PPEnv) :
    isdef m (ifdefUndef n e) = isdef m e := by
  unfold ifdefUndef
  by_cases hd : isdef n e
  · simp [hd, isdef_undef_ne h]
  · simp [hd]

namespace bash

/-- The `#ifdef __wasi__` body of `bash/wasm_compat.h`: the three
guarded stat-field aliases (`#ifndef st_atime` / `#define st_atime
st_atim.tv_sec` and likewise for `st_mtime`, `st_ctime`). -/
def wasiBody (e : PPEnv) : PPEnv :=
  ifndefDefine .st_ctime (ifndefDefine .st_mtime (ifndefDefine .st_atime e))

/-- `bash/wasm_compat.h` as a transformer of the preprocessor state:
include guard `WASM_COMPAT_H`, then the `#ifdef __wasi__` block. -/
def header (e : PPEnv) : PPEnv :=
  if isdef .WASM_COMPAT_H e then e
  else
    let e1 := define .WASM_COMPAT_H e
    if isdef .__wasi__ e1 then wasiBody e1 else e1

theorem wasiBody_guard (e : PPEnv)
    (h : isdef .WASM_COMPAT_H e = true) :
    isdef .WASM_COMPAT_H (wasiBody e) = true := by
  unfold wasiBody
  rw [isdef_ifndefDefine_ne (by decide), isdef_ifndefDefine_ne (by decide),
    isdef_ifndefDefine_ne (by decide)]
  exact h

theorem bashHeader_guard (e : PPEnv) :
    isdef .WASM_COMPAT_H (header e) = true := by
  unfold header
  by_cases h : isdef .WASM_COMPAT_H e
  · simp [h]
  · simp only [h, if_false, Bool.false_eq_true]
    by_cases hw : isdef .__wasi__ (define .WASM_COMPAT_H e)
    · simp [hw, wasiBody_guard _ (isdef_define_self _ _)]
    · simp [hw, isdef_define_self]

theorem bashHeader_of_guard {e : PPEnv}
    (h : isdef .WASM_COMPAT_H e = true) : header e = e := by
  unfold header
  simp [h]

end bash

namespace nginx

/-- The sendfile suppression of `nginx/wasm_compat.h`:
`#ifdef NGX_HAVE_SENDFILE #undef NGX_HAVE_SENDFILE #endif` and the
same for `NGX_HAVE_SENDFILE64`. -/
def sendfileBlocks (e : PPEnv) : PPEnv :=
  ifdefUndef .NGX_HAVE_SENDFILE64 (ifdefUndef .NGX_HAVE_SENDFILE e)

/-- The stat-field mapping block of `nginx/wasm_compat.h`: the same
three `#ifndef`-guarded aliases as the bash header, with no
surrounding runtime conditional. -/
def statFields (e : PPEnv) : PPEnv :=
  ifndefDefine .st_ctime (ifndefDefine .st_mtime (ifndefDefine .st_atime e))

/-- `#ifndef CPU_SETSIZE`: defines `CPU_SETSIZE` and the typedef
`cpu_set_t` together, guarded only by the sentinel. -/
def cpuSetsizeBlock (e : PPEnv) : PPEnv :=
  if isdef .CPU_SETSIZE e then e
  else define .cpu_set_t (define .CPU_SETSIZE e)

/-- The three individually guarded affinity macros:
`#ifndef CPU_ZERO ...`, `#ifndef CPU_SET ...`, `#ifndef CPU_ISSET ...`. -/
def cpuMacroBlocks (e : PPEnv) : PPEnv :=
  ifndefDefine .CPU_ISSET (ifndefDefine .CPU_SET (ifndefDefine .CPU_ZERO e))

/-- `#if !defined(HAVE_CRYPT) && !defined(_CRYPT_H)`: defines the
`crypt` stub function and then `HAVE_CRYPT`. -/
def cryptBlock (e : PPEnv) : PPEnv :=
  if !isdef .HAVE_CRYPT e && !isdef ._CRYPT_H e then
    define .HAVE_CRYPT (define .crypt e)
  else e

/-- The body of `nginx/wasm_compat.h` after the include guard, in
source order. -/
def body (e : PPEnv) : PPEnv :=
  cryptBlock (cpuMacroBlocks (cpuSetsizeBlock (statFields (sendfileBlocks e))))

/-- `nginx/wasm_compat.h` as a transformer of the preprocessor state:
include guard `_WASM_COMPAT_H`, then the body. -/
def header (e : PPEnv) : PPEnv :=
  if isdef ._WASM_COMPAT_H e then e
  else body (define ._WASM_COMPAT_H e)

theorem isdef_sendfileBlocks_ne {m : MName}
    (h1 : m ≠ .NGX_HAVE_SENDFILE) (h2 : m ≠ .NGX_HAVE_SENDFILE64)
    (e : PPEnv) : isdef m (sendfileBlocks e) = isdef m e := by
  unfold sendfileBlocks
  rw [isdef_ifdefUndef_ne h2, isdef_ifdefUndef_ne h1]

theorem isdef_statFields_ne {m : MName}
    (h1 : m ≠ .st_atime) (h2 : m ≠ .st_mtime) (h3 : m ≠ .st_ctime)
    (e : PPEnv) : isdef m (statFields e) = isdef m e := by
  unfold statFields
  rw [isdef_ifndefDefine_ne h3, isdef_ifndefDefine_ne h2,
    isdef_ifndefDefine_ne h1]

theorem isdef_cpuSetsizeBlock_ne {m : MName}
    (h1 : m ≠ .CPU_SETSIZE) (h2 : m ≠ .cpu_set_t)
    (e : PPEnv) : isdef m (cpuSetsizeBlock e) = isdef m e := by
  unfold cpuSetsizeBlock
  by_cases h : isdef .CPU_SETSIZE e
  · simp [h]
  · simp [h, isdef_define_ne h2, isdef_define_ne h1]

theorem isdef_cpuMacroBlocks_ne {m : MName}
    (h1 : m ≠ .CPU_ZERO) (h2 : m ≠ .CPU_SET) (h3 : m ≠ .CPU_ISSET)
    (e : PPEnv) : isdef m (cpuMacroBlocks e) = isdef m e := by
  unfold cpuMacroBlocks
  rw [isdef_ifndefDefine_ne h3, isdef_ifndefDefine_ne h2,
    isdef_ifndefDefine_ne h1]

theorem isdef_cryptBlock_ne {m : MName}
    (h1 : m ≠ .crypt) (h2 : m ≠ .HAVE_CRYPT)
    (e : PPEnv) : isdef m (cryptBlock e) = isdef m e := by
  unfold cryptBlock
  by_cases h : !isdef .HAVE_CRYPT e && !isdef ._CRYPT_H e
  · simp [h, isdef_define_ne h2, isdef_define_ne h1]
  · simp [h]

theorem isdef_body_guard (e : PPEnv)
    (h : isdef ._WASM_COMPAT_H e = true) :
    isdef ._WASM_COMPAT_H (body e) = true := by
  unfold body
  rw [isdef_cryptBlock_ne (by decide) (by decide),
    isdef_cpuMacroBlocks_ne (by decide) (by decide) (by decide),
    isdef_cpuSetsizeBlock_ne (by decide) (by decide),
    isdef_statFields_ne (by decide) (by decide) (by decide),
    isdef_sendfileBlocks_ne (by decide) (by decide)]
  exact h

theorem nginxHeader_guard (e : PPEnv) :
    isdef ._WASM_COMPAT_H (header e) = true := by
  unfold header
  by_cases h : isdef ._WASM_COMPAT_H e
  · simp [h]
  · simp [h, isdef_body_guard _ (isdef_define_self _ _)]

theorem nginxHeader_of_guard {e : PPEnv}
    (h : isdef ._WASM_COMPAT_H e = true) : header e = e := by
  unfold header
  simp [h]

end nginx

namespace nginx

/-- The `crypt` stub of `nginx/wasm_compat.h`:
`static inline char *crypt(const char *key, const char *salt)` casts
both arguments to `void` and returns `(char *)0`.  A C `char *` value
is modelled as `Option String`, with `none` for the null pointer. -/
def crypt (key salt : Option String) : Option String :=
  let _ := key
  let _ := salt
  none

/-- The constant the affinity block defines: `#define CPU_SETSIZE 1024`. -/
def CPU_SETSIZE : Nat := 1024

/-- Length of the `__bits` array of the shim's `cpu_set_t`, as declared:
`unsigned long __bits[CPU_SETSIZE / (8 * sizeof(unsigned long))]`,
parametrised by `sizeof(unsigned long)` in bytes. -/
def bitsLen (sizeofULong : Nat) : Nat :=
  CPU_SETSIZE / (8 * sizeofULong)

/-- Total bit capacity of the `__bits` array: number of elements times
the bit width of one `unsigned long`. -/
def totalBits (sizeofULong : Nat) : Nat :=
  bitsLen sizeofULong * (8 * sizeofULong)

/-- A value of the shim's `cpu_set_t`: the contents of its `__bits`
array of unsigned longs. -/
structure cpu_set_t where
  __bits : List Nat
  deriving DecidableEq

/-- `#define CPU_ZERO(set) memset((set), 0, sizeof(cpu_set_t))`:
every word (hence every byte) of the structure becomes zero. -/
def CPU_ZERO (set : cpu_set_t) : cpu_set_t :=
  { __bits := List.replicate set.__bits.length 0 }

/-- `#define CPU_SET(cpu, set) ((void)0)`: the expansion is a statement
with no effect, so as a transformer of the affinity value it returns
the value untouched (the `cpu` argument does not occur in the body). -/
def CPU_SET (cpu : Int) (set : cpu_set_t) : cpu_set_t :=
  let _ := cpu
  set

/-- `#define CPU_ISSET(cpu, set) (0)`: the expansion is the constant
expression `0`, whatever the arguments are. -/
def CPU_ISSET (cpu : Int) (set : cpu_set_t) : Int :=
  let _ := cpu
  let _ := set
  0

/-- The raw token expansion of the function-like macro
`CPU_SET(cpu, set)`: the replacement list is `((void)0)` and neither
parameter occurs in it. -/
def CPU_SET_expand (cpu set : String) : String :=
  let _ := cpu
  let _ := set
  "((void)0)"

/-- The raw token expansion of the function-like macro
`CPU_ISSET(cpu, set)`: the replacement list is `(0)` and neither
parameter occurs in it. -/
def CPU_ISSET_expand (cpu set : String) : String :=
  let _ := cpu
  let _ := set
  "(0)"

end nginx

/-- A C `struct timespec`: seconds and nanoseconds. -/
structure timespec where
  tv_sec : Int
  tv_nsec : Int
  deriving DecidableEq

/-- The timestamp members of the target runtime's `struct stat`: three
`struct timespec` fields and no legacy flat `st_atime` / `st_mtime` /
`st_ctime` members. -/
structure struct_stat where
  st_atim : timespec
  st_mtim : timespec
  st_ctim : timespec
  deriving DecidableEq

/-- The replacement lists of the three stat-alias macros, identical in
both headers: `st_atime ↦ st_atim.tv_sec`, `st_mtime ↦ st_mtim.tv_sec`,
`st_ctime ↦ st_ctim.tv_sec`; any other name has no expansion here. -/
def legacyExpansion : String → Option (String × String)
  | "st_atime" => some ("st_atim", "tv_sec")
  | "st_mtime" => some ("st_mtim", "tv_sec")
  | "st_ctime" => some ("st_ctim", "tv_sec")
  | _ => none

/-- Member lookup on a `struct timespec` value by field name. -/
def timespecField (t : timespec) : String → Option Int
  | "tv_sec" => some t.tv_sec
  | "tv_nsec" => some t.tv_nsec
  | _ => none

/-- Member lookup on a `struct stat` value by field name. -/
def statField (s : struct_stat) : String → Option timespec
  | "st_atim" => some s.st_atim
  | "st_mtim" => some s.st_mtim
  | "st_ctim" => some s.st_ctim
  | _ => none

/-- Reading `s.name` where `name` is one of the legacy stat-field
macros: expand the macro to a two-component member path and look that
path up on the value `s`. -/
def readLegacy (s : struct_stat) (name : String) : Option Int :=
  match legacyExpansion name with
  | some (f, c) =>
      match statField s f with
      | some t => timespecField t c
      | none => none
  | none => none

theorem ifndef3_true (a b c : MName) (hab : a ≠ b) (hac : a ≠ c)
    (hbc : b ≠ c) (e : PPEnv) :
    isdef a (ifndefDefine c (ifndefDefine b (ifndefDefine a e))) = true ∧
    isdef b (ifndefDefine c (ifndefDefine b (ifndefDefine a e))) = true ∧
    isdef c (ifndefDefine c (ifndefDefine b (ifndefDefine a e))) = true := by
  refine ⟨?_, ?_, ?_⟩
  · rw [isdef_ifndefDefine_ne hac, isdef_ifndefDefine_ne hab]
    exact isdef_ifndefDefine_self a _
  · rw [isdef_ifndefDefine_ne hbc]
    exact isdef_ifndefDefine_self b _
  · exact isdef_ifndefDefine_self c _

theorem nginx.header_not_guard {e : PPEnv}
    (h : isdef ._WASM_COMPAT_H e = false) :
    nginx.header e = nginx.body (define ._WASM_COMPAT_H e) := by
  unfold nginx.header
  simp [h]

theorem bash.header_not_guard_wasi {e : PPEnv}
    (hg : isdef .WASM_COMPAT_H e = false)
    (hw : isdef .__wasi__ e = true) :
    bash.header e = bash.wasiBody (define .WASM_COMPAT_H e) := by
  unfold bash.header
  have hw1 : isdef .__wasi__ (define .WASM_COMPAT_H e) = true := by
    rw [isdef_define_ne (by decide)]
    exact hw
  simp [hg, hw1]

theorem bash.header_not_guard_nowasi {e : PPEnv}
    (hg : isdef .WASM_COMPAT_H e = false)
    (hw : isdef .__wasi__ e = false) :
    bash.header e = define .WASM_COMPAT_H e := by
  unfold bash.header
  have hw1 : isdef .__wasi__ (define .WASM_COMPAT_H e) = false := by
    rw [isdef_define_ne (by decide)]
    exact hw
  simp [hg, hw1]

theorem nginx.cryptBlock_pos {e : PPEnv}
    (h1 : isdef .HAVE_CRYPT e = false) (h2 : isdef ._CRYPT_H e = false) :
    nginx.cryptBlock e = define .HAVE_CRYPT (define .crypt e) := by
  unfold nginx.cryptBlock
  simp [h1, h2]

theorem nginx.sendfile_after (e : PPEnv) :
    isdef .NGX_HAVE_SENDFILE (nginx.sendfileBlocks e) = false ∧
    isdef .NGX_HAVE_SENDFILE64 (nginx.sendfileBlocks e) = false := by
  unfold nginx.sendfileBlocks
  refine ⟨?_, isdef_ifdefUndef_self _ _⟩
  rw [isdef_ifdefUndef_ne (by decide)]
  exact isdef_ifdefUndef_self _ _

theorem nginx.cpuSetsizeBlock_pos {e : PPEnv}
    (h : isdef .CPU_SETSIZE e = false) :
    nginx.cpuSetsizeBlock e = define .cpu_set_t (define .CPU_SETSIZE e) := by
  unfold nginx.cpuSetsizeBlock
  simp [h]

theorem nginx.cpuSetsizeBlock_neg {e : PPEnv}
    (h : isdef .CPU_SETSIZE e = true) :
    nginx.cpuSetsizeBlock e = e := by
  unfold nginx.cpuSetsizeBlock
  simp [h]

/-- C1: when neither `HAVE_CRYPT` nor `_CRYPT_H` is defined before the
(first, guard-free) inclusion of `nginx/wasm_compat.h`, the header
defines a function `crypt` that ignores both arguments (null or empty
strings included) and returns the null pointer, and afterwards
`HAVE_CRYPT` is defined. -/
theorem claim_c1_crypt_stub :
    (∀ key salt : Option String, nginx.crypt key salt = none) ∧
    ∀ e : PPEnv, isdef ._WASM_COMPAT_H e = false →
      isdef .HAVE_CRYPT e = false → isdef ._CRYPT_H e = false →
      isdef .crypt (nginx.header e) = true ∧
      isdef .HAVE_CRYPT (nginx.header e) = true := by
  refine ⟨fun _ _ => rfl, fun e hg hh hc => ?_⟩
  rw [nginx.header_not_guard hg]
  unfold nginx.body
  have hh1 : isdef .HAVE_CRYPT (nginx.cpuMacroBlocks (nginx.cpuSetsizeBlock
      (nginx.statFields (nginx.sendfileBlocks
        (define ._WASM_COMPAT_H e))))) = false := by
    rw [nginx.isdef_cpuMacroBlocks_ne (by decide) (by decide) (by decide),
      nginx.isdef_cpuSetsizeBlock_ne (by decide) (by decide),
      nginx.isdef_statFields_ne (by decide) (by decide) (by decide),
      nginx.isdef_sendfileBlocks_ne (by decide) (by decide),
      isdef_define_ne (by decide)]
    exact hh
  have hc1 : isdef ._CRYPT_H (nginx.cpuMacroBlocks (nginx.cpuSetsizeBlock
      (nginx.statFields (nginx.sendfileBlocks
        (define ._WASM_COMPAT_H e))))) = false := by
    rw [nginx.isdef_cpuMacroBlocks_ne (by decide) (by decide) (by decide),
      nginx.isdef_cpuSetsizeBlock_ne (by decide) (by decide),
      nginx.isdef_statFields_ne (by decide) (by decide) (by decide),
      nginx.isdef_sendfileBlocks_ne (by decide) (by decide),
      isdef_define_ne (by decide)]
    exact hc
  rw [nginx.cryptBlock_pos hh1 hc1]
  constructor
  · rw [isdef_define_ne (by decide)]
    exact isdef_define_self _ _
  · exact isdef_define_self _ _

/-- C1 witness: the stub returns null on concrete arguments, and after
processing the header from the empty definition state both the `crypt`
function and `HAVE_CRYPT` are defined. -/
theorem claim_c1_crypt_stub_witness :
    nginx.crypt (some "") none = none ∧
    isdef .crypt (nginx.header []) = true ∧
    isdef .HAVE_CRYPT (nginx.header []) = true :=
  ⟨claim_c1_crypt_stub.1 (some "") none,
   (claim_c1_crypt_stub.2 [] rfl rfl rfl).1,
   (claim_c1_crypt_stub.2 [] rfl rfl rfl).2⟩

/-- C2 counterexample: in `nginx/wasm_compat.h` the stat aliasing is
not guarded by any runtime-detection conditional.  Starting from a
state where `__wasi__` is NOT defined (and `st_atime` is not already
defined), processing the nginx header still introduces the `st_atime`
aliasing macro, contradicting the claim that no aliasing macros are
introduced when the target/runtime conditional does not hold. -/
theorem claim_c2_counterexample :
    isdef .__wasi__ ([] : PPEnv) = false ∧
    isdef .st_atime ([] : PPEnv) = false ∧
    isdef .st_atime (nginx.header []) = true := by decide

/-- C2 amended: in the bash header the aliases are introduced only
under the `__wasi__` conditional (without `__wasi__` the stat names
are untouched; with it, each becomes defined); the nginx header
introduces each alias whenever the name is not already defined,
unconditionally on any runtime-detection macro. -/
theorem claim_c2_stat_alias_guards : ∀ e : PPEnv,
    (isdef .__wasi__ e = false →
      isdef .st_atime (bash.header e) = isdef .st_atime e ∧
      isdef .st_mtime (bash.header e) = isdef .st_mtime e ∧
      isdef .st_ctime (bash.header e) = isdef .st_ctime e) ∧
    (isdef .__wasi__ e = true → isdef .WASM_COMPAT_H e = false →
      isdef .st_atime (bash.header e) = true ∧
      isdef .st_mtime (bash.header e) = true ∧
      isdef .st_ctime (bash.header e) = true) ∧
    (isdef ._WASM_COMPAT_H e = false →
      isdef .st_atime (nginx.header e) = true ∧
      isdef .st_mtime (nginx.header e) = true ∧
      isdef .st_ctime (nginx.header e) = true) := by
  intro e
  refine ⟨fun hw => ?_, fun hw hg => ?_, fun hg => ?_⟩
  · by_cases hg : isdef .WASM_COMPAT_H e
    · rw [bash.bashHeader_of_guard hg]
      exact ⟨rfl, rfl, rfl⟩
    · rw [bash.header_not_guard_nowasi (Bool.not_eq_true _ ▸ hg) hw]
      exact ⟨isdef_define_ne (by decide) _, isdef_define_ne (by decide) _,
        isdef_define_ne (by decide) _⟩
  · rw [bash.header_not_guard_wasi hg hw]
    exact ifndef3_true .st_atime .st_mtime .st_ctime
      (by decide) (by decide) (by decide) (define .WASM_COMPAT_H e)
  · rw [nginx.header_not_guard hg]
    unfold nginx.body
    have h3 := ifndef3_true .st_atime .st_mtime .st_ctime
      (by decide) (by decide) (by decide)
      (nginx.sendfileBlocks (define ._WASM_COMPAT_H e))
    refine ⟨?_, ?_, ?_⟩
    · rw [nginx.isdef_cryptBlock_ne (by decide) (by decide),
        nginx.isdef_cpuMacroBlocks_ne (by decide) (by decide) (by decide),
        nginx.isdef_cpuSetsizeBlock_ne (by decide) (by decide)]
      exact h3.1
    · rw [nginx.isdef_cryptBlock_ne (by decide) (by decide),
        nginx.isdef_cpuMacroBlocks_ne (by decide) (by decide) (by decide),
        nginx.isdef_cpuSetsizeBlock_ne (by decide) (by decide)]
      exact h3.2.1
    · rw [nginx.isdef_cryptBlock_ne (by decide) (by decide),
        nginx.isdef_cpuMacroBlocks_ne (by decide) (by decide) (by decide),
        nginx.isdef_cpuSetsizeBlock_ne (by decide) (by decide)]
      exact h3.2.2

/-- C2 witness: the amended statement applied to concrete states — in
a `__wasi__` build the bash header defines `st_atime`, and from the
empty state the nginx header defines it too. -/
theorem claim_c2_stat_alias_guards_witness :
    isdef .st_atime (bash.header [MName.__wasi__]) = true ∧
    isdef .st_atime (nginx.header []) = true :=
  ⟨((claim_c2_stat_alias_guards [MName.__wasi__]).2.1 rfl rfl).1,
   ((claim_c2_stat_alias_guards []).2.2 rfl).1⟩

/-- C3: after a (first, guard-free) inclusion of `nginx/wasm_compat.h`
both `NGX_HAVE_SENDFILE` and `NGX_HAVE_SENDFILE64` are undefined,
whatever their state (defined or undefined) beforehand. -/
theorem claim_c3_sendfile_undefined : ∀ e : PPEnv,
    isdef ._WASM_COMPAT_H e = false →
    isdef .NGX_HAVE_SENDFILE (nginx.header e) = false ∧
    isdef .NGX_HAVE_SENDFILE64 (nginx.header e) = false := by
  intro e hg
  rw [nginx.header_not_guard hg]
  unfold nginx.body
  have hs := nginx.sendfile_after (define ._WASM_COMPAT_H e)
  constructor
  · rw [nginx.isdef_cryptBlock_ne (by decide) (by decide),
      nginx.isdef_cpuMacroBlocks_ne (by decide) (by decide) (by decide),
      nginx.isdef_cpuSetsizeBlock_ne (by decide) (by decide),
      nginx.isdef_statFields_ne (by decide) (by decide) (by decide)]
    exact hs.1
  · rw [nginx.isdef_cryptBlock_ne (by decide) (by decide),
      nginx.isdef_cpuMacroBlocks_ne (by decide) (by decide) (by decide),
      nginx.isdef_cpuSetsizeBlock_ne (by decide) (by decide),
      nginx.isdef_statFields_ne (by decide) (by decide) (by decide)]
    exact hs.2

/-- C3 witness: starting from a state where both sendfile macros ARE
defined, the header leaves both undefined. -/
theorem claim_c3_sendfile_undefined_witness :
    isdef .NGX_HAVE_SENDFILE
      (nginx.header [MName.NGX_HAVE_SENDFILE, MName.NGX_HAVE_SENDFILE64])
        = false ∧
    isdef .NGX_HAVE_SENDFILE64
      (nginx.header [MName.NGX_HAVE_SENDFILE, MName.NGX_HAVE_SENDFILE64])
        = false :=
  claim_c3_sendfile_undefined
    [MName.NGX_HAVE_SENDFILE, MName.NGX_HAVE_SENDFILE64] rfl

/-- C4 counterexample: the three affinity macros are each guarded by
their own `#ifndef`, not by the `CPU_SETSIZE` sentinel.  Starting from
a state where the sentinel IS defined but the macros are not,
processing the nginx header still introduces `CPU_ZERO`, `CPU_SET` and
`CPU_ISSET`, contradicting the claim that none of the shim's
definitions are introduced when the sentinel is defined. -/
theorem claim_c4_counterexample :
    isdef .CPU_SETSIZE [MName.CPU_SETSIZE] = true ∧
    isdef .CPU_ZERO [MName.CPU_SETSIZE] = false ∧
    isdef .CPU_ZERO (nginx.header [MName.CPU_SETSIZE]) = true ∧
    isdef .CPU_SET (nginx.header [MName.CPU_SETSIZE]) = true ∧
    isdef .CPU_ISSET (nginx.header [MName.CPU_SETSIZE]) = true := by decide

/-- C4 amended: on a (first, guard-free) inclusion, the `cpu_set_t`
typedef and `CPU_SETSIZE` are introduced exactly when the sentinel
`CPU_SETSIZE` is absent beforehand, while each of `CPU_ZERO`,
`CPU_SET`, `CPU_ISSET` is guarded individually by its own absence and
is defined afterwards in every case. -/
theorem claim_c4_cpu_shim_guards : ∀ e : PPEnv,
    isdef ._WASM_COMPAT_H e = false →
    (isdef .CPU_SETSIZE e = false →
      isdef .CPU_SETSIZE (nginx.header e) = true ∧
      isdef .cpu_set_t (nginx.header e) = true) ∧
    (isdef .CPU_SETSIZE e = true →
      isdef .cpu_set_t (nginx.header e) = isdef .cpu_set_t e) ∧
    isdef .CPU_ZERO (nginx.header e) = true ∧
    isdef .CPU_SET (nginx.header e) = true ∧
    isdef .CPU_ISSET (nginx.header e) = true := by
  intro e hg
  rw [nginx.header_not_guard hg]
  unfold nginx.body
  have hpre : isdef .CPU_SETSIZE (nginx.statFields (nginx.sendfileBlocks
      (define ._WASM_COMPAT_H e))) = isdef .CPU_SETSIZE e := by
    rw [nginx.isdef_statFields_ne (by decide) (by decide) (by decide),
      nginx.isdef_sendfileBlocks_ne (by decide) (by decide),
      isdef_define_ne (by decide)]
  have h3 := ifndef3_true .CPU_ZERO .CPU_SET .CPU_ISSET
    (by decide) (by decide) (by decide)
    (nginx.cpuSetsizeBlock (nginx.statFields (nginx.sendfileBlocks
      (define ._WASM_COMPAT_H e))))
  refine ⟨fun hs => ?_, fun hs => ?_, ?_, ?_, ?_⟩
  · rw [nginx.cpuSetsizeBlock_pos (hpre.trans hs)]
    constructor
    · rw [nginx.isdef_cryptBlock_ne (by decide) (by decide),
        nginx.isdef_cpuMacroBlocks_ne (by decide) (by decide) (by decide),
        isdef_define_ne (by decide)]
      exact isdef_define_self _ _
    · rw [nginx.isdef_cryptBlock_ne (by decide) (by decide),
        nginx.isdef_cpuMacroBlocks_ne (by decide) (by decide) (by decide)]
      exact isdef_define_self _ _
  · rw [nginx.isdef_cryptBlock_ne (by decide) (by decide),
      nginx.isdef_cpuMacroBlocks_ne (by decide) (by decide) (by decide),
      nginx.cpuSetsizeBlock_neg (hpre.trans hs),
      nginx.isdef_statFields_ne (by decide) (by decide) (by decide),
      nginx.isdef_sendfileBlocks_ne (by decide) (by decide),
      isdef_define_ne (by decide)]
  · rw [nginx.isdef_cryptBlock_ne (by decide) (by decide)]
    exact h3.1
  · rw [nginx.isdef_cryptBlock_ne (by decide) (by decide)]
    exact h3.2.1
  · rw [nginx.isdef_cryptBlock_ne (by decide) (by decide)]
    exact h3.2.2

/-- C4 witness: from the empty state the header introduces the whole
shim (sentinel, typedef and the three macros). -/
theorem claim_c4_cpu_shim_guards_witness :
    isdef .CPU_SETSIZE (nginx.header []) = true ∧
    isdef .cpu_set_t (nginx.header []) = true ∧
    isdef .CPU_ZERO (nginx.header []) = true :=
  ⟨((claim_c4_cpu_shim_guards [] rfl).1 rfl).1,
   ((claim_c4_cpu_shim_guards [] rfl).1 rfl).2,
   (claim_c4_cpu_shim_guards [] rfl).2.2.1⟩

/-- C5: the shim's `CPU_SET` (expansion `((void)0)`) leaves every word
— hence every byte — of any `cpu_set_t` instance unchanged, for every
index; in particular a zero-initialized instance (`CPU_ZERO`) is not
altered. -/
theorem claim_c5_cpu_set_noop :
    ∀ (cpu : Int) (set : nginx.cpu_set_t),
      (nginx.CPU_SET cpu set).__bits = set.__bits ∧
      (nginx.CPU_SET cpu (nginx.CPU_ZERO set)).__bits
        = (nginx.CPU_ZERO set).__bits :=
  fun _ _ => ⟨rfl, rfl⟩

/-- C6: the shim's `CPU_ISSET` (expansion `(0)`) evaluates to zero for
every index and every instance, zeroed or not. -/
theorem claim_c6_cpu_isset_false :
    ∀ (cpu : Int) (set : nginx.cpu_set_t),
      nginx.CPU_ISSET cpu set = 0 :=
  fun _ _ => rfl

/-- C7: with `CPU_SETSIZE` defined as 1024, the `__bits` array of
`CPU_SETSIZE / (8 * sizeof(unsigned long))` unsigned longs has a total
bit capacity of exactly 1024 bits, for every word size whose bit width
divides 1024 (in particular the 4-byte `unsigned long` of the wasm32
target and the 8-byte one of 64-bit hosts). -/
theorem claim_c7_capacity_1024 :
    ∀ sizeofULong : Nat, (8 * sizeofULong) ∣ nginx.CPU_SETSIZE →
      nginx.totalBits sizeofULong = 1024 ∧ nginx.CPU_SETSIZE = 1024 := by
  intro s h
  refine ⟨?_, rfl⟩
  unfold nginx.totalBits nginx.bitsLen
  unfold nginx.CPU_SETSIZE at h ⊢
  exact Nat.div_mul_cancel h

/-- C7 witness: the wasm32 word size, `sizeof(unsigned long) = 4`,
gives exactly 1024 bits. -/
theorem claim_c7_capacity_1024_witness :
    (8 * 4) ∣ nginx.CPU_SETSIZE ∧ nginx.totalBits 4 = 1024 := by
  have h : (8 * 4) ∣ nginx.CPU_SETSIZE := ⟨32, by norm_num [nginx.CPU_SETSIZE]⟩
  exact ⟨h, (claim_c7_capacity_1024 4 h).1⟩

/-- C8: reading a legacy stat name through the macro expansion
(`st_atime ↦ st_atim.tv_sec`, etc., the replacement lists of both
headers) on any `struct stat` value yields exactly the seconds
component of the corresponding timespec field. -/
theorem claim_c8_legacy_reads_seconds :
    ∀ s : struct_stat,
      readLegacy s "st_atime" = some s.st_atim.tv_sec ∧
      readLegacy s "st_mtime" = some s.st_mtim.tv_sec ∧
      readLegacy s "st_ctime" = some s.st_ctim.tv_sec :=
  fun _ => ⟨rfl, rfl, rfl⟩

/-- C9: both headers are idempotent under re-inclusion: from every
prior preprocessor state, processing a header twice yields exactly the
state of processing it once (the include guard makes the second pass a
no-op, so it emits no definition and can raise no redefinition
error). -/
theorem claim_c9_idempotent_inclusion :
    ∀ e : PPEnv,
      bash.header (bash.header e) = bash.header e ∧
      nginx.header (nginx.header e) = nginx.header e :=
  fun e => ⟨bash.bashHeader_of_guard (bash.bashHeader_guard e),
    nginx.nginxHeader_of_guard (nginx.nginxHeader_guard e)⟩

/-- C10: the replacement lists of `CPU_SET(cpu, set)` and
`CPU_ISSET(cpu, set)` contain neither parameter, so the expansion is
one fixed token string for all argument expressions (negative or
out-of-range index expressions included): the arguments are discarded
unevaluated and impose no precondition. -/
theorem claim_c10_args_discarded :
    ∀ cpu set cpu2 set2 : String,
      nginx.CPU_SET_expand cpu set = nginx.CPU_SET_expand cpu2 set2 ∧
      nginx.CPU_ISSET_expand cpu set = nginx.CPU_ISSET_expand cpu2 set2 ∧
      nginx.CPU_SET_expand cpu set = "((void)0)" ∧
      nginx.CPU_ISSET_expand cpu set = "(0)" :=
  fun _ _ _ _ => ⟨rfl, rfl, rfl, rfl⟩
